import Mathlib

/-!
Verification development for the SafePay backend (Express + Prisma + Socket.io).

The Lean definitions below are a shallow embedding of the JavaScript source:
  - lib/mlService.js        (scoreTransaction and its fail-open fallback)
  - lib/gemini.js           (explainTransaction, buildFallbackExplanation)
  - lib/socket.js           (room membership, join:senior handler)
  - routes/transactions.js  (POST /api/transactions pipeline)
  - routes/alerts.js        (POST /api/alerts/:id/decide)
  - routes/trusted.js       (invite / revoke trusted links)
  - routes/users.js         (PATCH /api/users/settings)
  - routes/auth.js          (POST /api/auth/register)

Numbers are modelled with Rat (the JS numbers involved are small decimals),
database rows as Lean structures held in lists, and each Express handler as a
pure function from system state to (HTTP result, new state).  The decide
handler additionally gets a small-step presentation whose steps are the
segments between its await points, so that interleavings of two concurrent
requests on the single-threaded Node event loop can be examined.
-/

namespace SafePay

/-- Prisma enum Role (SENIOR | FAMILY). -/
inductive Role where
  | SENIOR
  | FAMILY
  deriving DecidableEq, Repr

/-- Prisma enum AlertStatus (PENDING | APPROVED | DENIED | EXPIRED). -/
inductive AlertStatus where
  | PENDING
  | APPROVED
  | DENIED
  | EXPIRED
  deriving DecidableEq, Repr

/-- Prisma enum LinkStatus (ACTIVE | REVOKED). -/
inductive LinkStatus where
  | ACTIVE
  | REVOKED
  deriving DecidableEq, Repr

/-- Risk flag object returned by the ML service: { flag, description, severity }. -/
structure RiskFlag where
  flag : String
  description : String
  severity : String
  deriving DecidableEq, Repr

/-- Transaction facts inside gemini_prompt_context, as destructured by
buildFallbackExplanation in lib/gemini.js (ctx.transaction). -/
structure CtxTxn where
  amount : Rat
  merchant : String
  city : String
  deriving DecidableEq, Repr

/-- Risk summary inside gemini_prompt_context (ctx.risk): flag codes and level. -/
structure CtxRisk where
  flags : List String
  level : String
  deriving DecidableEq, Repr

/-- Baseline facts inside gemini_prompt_context (ctx.user_baseline). -/
structure CtxBaseline where
  amountFactor : Rat
  deriving DecidableEq, Repr

/-- Shape of gemini_prompt_context: a prompt template plus the structured parts
that buildFallbackExplanation reads (each optional, mirroring the optional
chaining transaction?.amount etc. in lib/gemini.js). -/
structure PromptCtx where
  promptTemplate : String
  transaction : Option CtxTxn
  risk : Option CtxRisk
  userBaseline : Option CtxBaseline
  deriving DecidableEq, Repr

/-- Response shape of the ML scoring service (lib/mlService.js, §6 contract). -/
structure MLResult where
  riskScore : Rat
  riskLevel : String
  anomalyScore : Rat
  fraudProbability : Rat
  riskFlags : List RiskFlag
  geminiPromptContext : Option PromptCtx
  deriving DecidableEq, Repr

/-- Fixed neutral result substituted by scoreTransaction when the ML backend
is unreachable, times out, or answers non-2xx (lib/mlService.js lines 34-42). -/
def mlFallback : MLResult :=
  { riskScore := mkRat 35 100
    riskLevel := "MEDIUM"
    anomalyScore := mkRat 35 100
    fraudProbability := mkRat 35 100
    riskFlags := []
    geminiPromptContext := none }

/-- Embedding of scoreTransaction (lib/mlService.js): the transport outcome is
a parameter; some r is a successful 2xx JSON response, none is any transport
failure (unreachable, timeout, non-ok status), which yields the fallback. -/
def scoreTransaction (outcome : Option MLResult) : MLResult :=
  outcome.getD mlFallback

/-- Decimal rendering of a non-negative rational with d digits after the
point, matching Number.prototype.toFixed for the non-negative values that the
fallback templates format (amount.toFixed 2, factor.toFixed 1). -/
def ratToFixed (q : Rat) (d : Nat) : String :=
  let p : Int := (10 : Int) ^ d
  let n : Int := ⌊q * (p : Rat) + mkRat 1 2⌋
  let whole := n / p
  let frac := (n % p).toNat
  let fracStr := toString frac
  let pad := String.mk (List.replicate (d - fracStr.length) '0')
  toString whole ++ "." ++ pad ++ fracStr

/-- Explanation value { summary, reasons, action } plus the usedFallback mark;
a parsed Gemini response carries usedFallback = false because the route reads
explanation.usedFallback || false. -/
structure Explanation where
  summary : String
  reasons : List String
  action : String
  usedFallback : Bool
  deriving DecidableEq, Repr

/-- Outcome of the Gemini call in explainTransaction, one constructor per
failure path of lib/gemini.js: missing API key (no client), a thrown request
error, a JSON.parse failure on the response text, or a parsed object (whose
shape is then validated). -/
inductive GeminiOutcome where
  | noKey
  | requestError
  | parseFailure
  | parsed (summary : String) (reasons : List String) (action : String)
  deriving DecidableEq, Repr

/-- Amount destructured in buildFallbackExplanation: transaction?.amount ?? 0. -/
def ctxAmount (ctx : Option PromptCtx) : Rat :=
  ((ctx.bind (·.transaction)).map (·.amount)).getD 0

/-- Merchant destructured in buildFallbackExplanation:
transaction?.merchant ?? "Unknown merchant". -/
def ctxMerchant (ctx : Option PromptCtx) : String :=
  ((ctx.bind (·.transaction)).map (·.merchant)).getD "Unknown merchant"

/-- Flag-code list destructured in buildFallbackExplanation: risk?.flags ?? []. -/
def ctxFlags (ctx : Option PromptCtx) : List String :=
  ((ctx.bind (·.risk)).map (·.flags)).getD []

/-- Factor destructured in buildFallbackExplanation:
user_baseline?.amount_ratio ?? 1. -/
def ctxFactor (ctx : Option PromptCtx) : Rat :=
  ((ctx.bind (·.userBaseline)).map (·.amountFactor)).getD 1

/-- City as the NEW_LOCATION template literal renders transaction?.city: the
city when the transaction facts are present, the string "undefined" when the
whole transaction object is absent. -/
def ctxCity (ctx : Option PromptCtx) : String :=
  match ctx.bind (·.transaction) with
  | some tc => tc.city
  | none => "undefined"

/-- Risk level destructured in buildFallbackExplanation: risk?.level ?? "HIGH". -/
def ctxLevel (ctx : Option PromptCtx) : String :=
  ((ctx.bind (·.risk)).map (·.level)).getD "HIGH"

/-- Embedding of buildFallbackExplanation (lib/gemini.js lines 72-116).  The
JS destructures ctx || {}; an absent transaction renders the city as the
string "undefined" in the NEW_LOCATION sentence, exactly as the template
literal does. -/
def buildFallbackExplanation (ctx : Option PromptCtx) : Explanation :=
  let amount := ctxAmount ctx
  let merchant := ctxMerchant ctx
  let flags := ctxFlags ctx
  let factor := ctxFactor ctx
  let cityStr := ctxCity ctx
  let reasons :=
    (if flags.contains "LARGE_AMOUNT" then
      ["This purchase ($" ++ ratToFixed amount 2 ++ ") is " ++ ratToFixed factor 1 ++
        "x larger than your typical spending"] else []) ++
    (if flags.contains "HIGH_RISK_CATEGORY" then
      ["This merchant type (gift cards or financial transfers) is commonly used in scams targeting seniors"]
      else []) ++
    (if flags.contains "NEW_LOCATION" then
      ["This transaction is from an unfamiliar location: " ++ cityStr] else []) ++
    (if flags.contains "NEW_MERCHANT" then
      ["You have not shopped at \"" ++ merchant ++ "\" before"] else []) ++
    (if flags.contains "UNUSUAL_TIME" then
      ["This transaction occurred at an unusual hour for your spending pattern"] else []) ++
    (if flags.contains "HIGH_VELOCITY" then
      ["Multiple transactions occurred in a short time period"] else [])
  let reasons :=
    if reasons = [] then ["This transaction looks different from your normal spending patterns"]
    else reasons
  let riskLevel := ctxLevel ctx
  let action :=
    if riskLevel = "CRITICAL" then
      "Please contact your bank immediately if you did not make this purchase."
    else
      "Please review this transaction and confirm whether you made this purchase."
  { summary := "We flagged a " ++ riskLevel.toLower ++ "-risk transaction of $" ++
      ratToFixed amount 2 ++ " at " ++ merchant ++ ". Please review it carefully."
    reasons := reasons
    action := action
    usedFallback := true }

/-- Embedding of explainTransaction (lib/gemini.js lines 19-66).  With a
client but a null promptContext the JS dereferences
promptContext.prompt_template inside the try block, throws, and lands in the
catch; the shape validation rejects a falsy summary or action (the
Array.isArray check on reasons always passes in this typed model). -/
def explainTransaction (promptContext : Option PromptCtx) (o : GeminiOutcome) : Explanation :=
  match o with
  | .noKey => buildFallbackExplanation promptContext
  | .requestError => buildFallbackExplanation promptContext
  | .parseFailure => buildFallbackExplanation promptContext
  | .parsed s rs a =>
    match promptContext with
    | none => buildFallbackExplanation promptContext
    | some _ =>
      if s ≠ "" ∧ a ≠ "" then
        { summary := s, reasons := rs, action := a, usedFallback := false }
      else
        buildFallbackExplanation promptContext

/-- User row.  The riskThreshold column's default is not under src (the Prisma
schema file is absent); registration never sets it. -/
structure User where
  id : Nat
  email : String
  name : String
  role : Role
  protectionMode : Bool
  riskThreshold : Rat
  deriving DecidableEq, Repr

/-- Modelled from the spec: the Prisma schema (absent from src) defaults a new
user's alert-threshold override; §4.3 gives the default alert threshold 0.30. -/
def defaultRiskThreshold : Rat := mkRat 3 10

/-- Transaction row: immutable facts plus the scoring annex, empty until the
pipeline writes it (routes/transactions.js step 3). -/
structure Txn where
  id : Nat
  userId : Nat
  amount : Rat
  merchant : String
  mcc : String
  mccDesc : String
  city : String
  deviceId : Option String
  timestamp : Nat
  riskScore : Option Rat := none
  riskLevel : Option String := none
  anomalyScore : Option Rat := none
  fraudProbability : Option Rat := none
  riskFlags : List RiskFlag := []
  scoredAt : Option Nat := none
  deriving DecidableEq, Repr

/-- Alert row.  Creation in routes/transactions.js passes no status and no
resolvedAt; the Prisma schema is absent from src, so those two defaults are
modelled from the spec: a fresh alert is PENDING with empty resolution
fields (§4.3), resolvedAt set iff status is not PENDING (§3). -/
structure Alert where
  id : Nat
  seniorId : Nat
  transactionId : Nat
  status : AlertStatus
  aiSummary : Option String
  aiReasons : List String
  aiAction : Option String
  usedFallback : Bool
  createdAt : Nat
  resolvedAt : Option Nat
  deriving DecidableEq, Repr

/-- Approval row; decision is kept as the raw request string, as Prisma
receives it in routes/alerts.js line 129. -/
structure Approval where
  id : Nat
  alertId : Nat
  userId : Nat
  decision : String
  note : Option String
  deriving DecidableEq, Repr

/-- TrustedLink row: directed edge senior → family with a status. -/
structure TrustedLink where
  id : Nat
  seniorId : Nat
  familyId : Nat
  status : LinkStatus
  deriving DecidableEq, Repr

/-- Socket.io emission record: io.to("user:" ++ room).emit(event, payload);
rooms are named by the user id they belong to. -/
structure Emit where
  room : Nat
  event : String
  alertId : Nat
  deriving DecidableEq, Repr

/-- Connected socket: its id, the authenticated user, and the rooms it has
joined (lib/socket.js: the personal room on connect, plus any senior rooms
added by join:senior). -/
structure Sock where
  sid : Nat
  userId : Nat
  rooms : List Nat
  deriving DecidableEq, Repr

/-- Database state: one list per Prisma model, plus the id generator. -/
structure DB where
  users : List User
  txns : List Txn
  alerts : List Alert
  approvals : List Approval
  links : List TrustedLink
  nextId : Nat
  deriving DecidableEq, Repr

/-- Whole-system state: database, connected sockets, and the log of
Socket.io emissions in order. -/
structure Sys where
  db : DB
  socks : List Sock
  emits : List Emit
  deriving DecidableEq, Repr

/-- Empty initial state; ids start at 1. -/
def initSys : Sys :=
  { db := { users := [], txns := [], alerts := [], approvals := [], links := [], nextId := 1 }
    socks := []
    emits := [] }

/-- Result of a route handler: res.status(code).json(...) with either a value
or an error message. -/
inductive RouteRes (α : Type) where
  | ok (code : Nat) (v : α)
  | err (code : Nat) (msg : String)
  deriving DecidableEq, Repr

/-- Lookup used by the authenticate middleware: prisma.user.findUnique by id. -/
def findUser (db : DB) (userId : Nat) : Option User :=
  db.users.find? (fun u => u.id == userId)

/-- Lookup by email (auth register duplicate check, trusted invite). -/
def findUserByEmail (db : DB) (email : String) : Option User :=
  db.users.find? (fun u => u.email == email)

/-- prisma.trustedLink.findFirst({seniorId, familyId, status: ACTIVE}) ≠ null;
the access checks evaluate this fresh on every request. -/
def hasActiveLink (db : DB) (seniorId familyId : Nat) : Bool :=
  db.links.any (fun l => l.seniorId == seniorId && l.familyId == familyId &&
    decide (l.status = .ACTIVE))

/-- ACTIVE links of a senior, the fanout recipient list computed at emit time
(routes/transactions.js lines 75-78, routes/alerts.js lines 152-154). -/
def activeLinksOf (db : DB) (seniorId : Nat) : List TrustedLink :=
  db.links.filter (fun l => l.seniorId == seniorId && decide (l.status = .ACTIVE))

/-- Decision strings accepted by the decide route; anything else is a 400. -/
def decodeDecision (decision : String) : Option AlertStatus :=
  if decision = "APPROVED" then some .APPROVED
  else if decision = "DENIED" then some .DENIED
  else none

/-- Request body of POST /api/transactions as the handler destructures it. -/
structure TxnBody where
  amount : Rat
  merchant : String
  mcc : String
  mccDesc : Option String
  city : String
  deviceId : Option String
  deriving DecidableEq, Repr

/-- Embedding of POST /api/transactions (routes/transactions.js lines 16-106).
The body is persisted unvalidated (step 1), scored with the ML outcome given
as a parameter (step 2-3), and when riskScore reaches the hard-coded
threshold 0.3 an alert is created and fanned out (steps 4-5).  Returns the
HTTP result together with the new state. -/
def submitTransaction (sys : Sys) (actorId : Nat) (body : TxnBody)
    (ml : Option MLResult) (g : GeminiOutcome) (now : Nat) :
    RouteRes (Txn × Option Alert) × Sys :=
  match findUser sys.db actorId with
  | none => (.err 401 "User not found", sys)
  | some actor =>
    if actor.role ≠ .SENIOR then (.err 403 "Senior access only", sys)
    else
      let txnId := sys.db.nextId
      let txn : Txn :=
        { id := txnId, userId := actor.id, amount := body.amount
          merchant := body.merchant, mcc := body.mcc
          mccDesc := body.mccDesc.getD "Unknown", city := body.city
          deviceId := body.deviceId, timestamp := now }
      let riskResult := scoreTransaction ml
      let scored : Txn :=
        { txn with
          riskScore := some riskResult.riskScore
          riskLevel := some riskResult.riskLevel
          anomalyScore := some riskResult.anomalyScore
          fraudProbability := some riskResult.fraudProbability
          riskFlags := riskResult.riskFlags
          scoredAt := some now }
      let db2 : DB := { sys.db with txns := sys.db.txns ++ [scored], nextId := txnId + 1 }
      let threshold : Rat := mkRat 3 10
      if riskResult.riskScore ≥ threshold then
        let explanation := explainTransaction riskResult.geminiPromptContext g
        let alertId := db2.nextId
        let alert : Alert :=
          { id := alertId, seniorId := actor.id, transactionId := txnId
            status := .PENDING
            aiSummary := some explanation.summary
            aiReasons := explanation.reasons
            aiAction := some explanation.action
            usedFallback := explanation.usedFallback
            createdAt := now, resolvedAt := none }
        let db3 : DB := { db2 with alerts := db2.alerts ++ [alert], nextId := alertId + 1 }
        let recipients := activeLinksOf db3 actor.id
        let newEmits : List Emit :=
          { room := actor.id, event := "alert:new", alertId := alertId } ::
            recipients.map (fun l => { room := l.familyId, event := "alert:new", alertId := alertId })
        (.ok 201 (scored, some alert), { sys with db := db3, emits := sys.emits ++ newEmits })
      else
        (.ok 201 (scored, none), { sys with db := db2 })

/-- Embedding of POST /api/alerts/:id/decide (routes/alerts.js lines 95-164)
as one sequential handler run: validate the decision string, read the alert,
reject non-PENDING with 409, check access, insert the Approval, update the
alert's status and resolvedAt, then emit alert:update to the senior's room
and to every currently ACTIVE family link. -/
def decideRoute (sys : Sys) (actorId alertId : Nat) (decision : String)
    (note : Option String) (now : Nat) : RouteRes (Alert × Approval) × Sys :=
  match findUser sys.db actorId with
  | none => (.err 401 "User not found", sys)
  | some actor =>
    match decodeDecision decision with
    | none => (.err 400 "decision must be APPROVED or DENIED", sys)
    | some d =>
      match sys.db.alerts.find? (fun a => a.id == alertId) with
      | none => (.err 404 "Alert not found", sys)
      | some alert =>
        if alert.status ≠ .PENDING then (.err 409 "Alert already resolved", sys)
        else if actor.role = .SENIOR ∧ alert.seniorId ≠ actor.id then
          (.err 403 "Access denied", sys)
        else if actor.role = .FAMILY ∧ ¬ hasActiveLink sys.db alert.seniorId actor.id then
          (.err 403 "Not in trusted circle", sys)
        else
          let approval : Approval :=
            { id := sys.db.nextId, alertId := alert.id, userId := actor.id
              decision := decision, note := note }
          let db1 : DB :=
            { sys.db with approvals := sys.db.approvals ++ [approval], nextId := sys.db.nextId + 1 }
          let updatedAlerts := db1.alerts.map (fun a =>
            if a.id = alert.id then { a with status := d, resolvedAt := some now } else a)
          let db2 : DB := { db1 with alerts := updatedAlerts }
          let updated : Alert := { alert with status := d, resolvedAt := some now }
          let recipients := activeLinksOf db2 alert.seniorId
          let newEmits : List Emit :=
            { room := alert.seniorId, event := "alert:update", alertId := alert.id } ::
              recipients.map (fun l =>
                { room := l.familyId, event := "alert:update", alertId := alert.id })
          (.ok 200 (updated, approval), { sys with db := db2, emits := sys.emits ++ newEmits })

/-- Embedding of POST /api/trusted/invite (routes/trusted.js lines 37-76). -/
def inviteRoute (sys : Sys) (actorId : Nat) (email : String) :
    RouteRes TrustedLink × Sys :=
  match findUser sys.db actorId with
  | none => (.err 401 "User not found", sys)
  | some actor =>
    if actor.role ≠ .SENIOR then (.err 403 "Senior access only", sys)
    else if email = "" then (.err 400 "email is required", sys)
    else
      match findUserByEmail sys.db email with
      | none => (.err 404 "No user found with that email", sys)
      | some familyUser =>
        if familyUser.role ≠ .FAMILY then
          (.err 400 "That user is not a family member account", sys)
        else if familyUser.id = actor.id then
          (.err 400 "Cannot invite yourself", sys)
        else
          match sys.db.links.find? (fun l =>
              l.seniorId == actor.id && l.familyId == familyUser.id) with
          | some existing =>
            if existing.status = .ACTIVE then
              (.err 409 "Already in trusted circle", sys)
            else
              let updatedLinks := sys.db.links.map (fun l =>
                if l.id = existing.id then { l with status := LinkStatus.ACTIVE } else l)
              (.ok 200 { existing with status := LinkStatus.ACTIVE },
                { sys with db := { sys.db with links := updatedLinks } })
          | none =>
            let link : TrustedLink :=
              { id := sys.db.nextId, seniorId := actor.id, familyId := familyUser.id
                status := .ACTIVE }
            (.ok 201 link,
              { sys with db :=
                { sys.db with links := sys.db.links ++ [link], nextId := sys.db.nextId + 1 } })

/-- Embedding of DELETE /api/trusted/:familyId (routes/trusted.js lines
79-94): sets the found link's status to REVOKED, never deletes the row. -/
def revokeRoute (sys : Sys) (actorId familyId : Nat) : RouteRes Unit × Sys :=
  match findUser sys.db actorId with
  | none => (.err 401 "User not found", sys)
  | some actor =>
    if actor.role ≠ .SENIOR then (.err 403 "Senior access only", sys)
    else
      match sys.db.links.find? (fun l =>
          l.seniorId == actor.id && l.familyId == familyId) with
      | none => (.err 404 "Link not found", sys)
      | some link =>
        let updatedLinks := sys.db.links.map (fun l =>
          if l.id = link.id then { l with status := LinkStatus.REVOKED } else l)
        (.ok 200 (), { sys with db := { sys.db with links := updatedLinks } })

/-- Embedding of POST /api/auth/register (routes/auth.js lines 178-210);
password handling is out of scope, the riskThreshold default is modelled
from the spec (defaultRiskThreshold). -/
def registerRoute (sys : Sys) (email name roleStr : String) : RouteRes User × Sys :=
  if email = "" ∨ name = "" then
    (.err 400 "email, password, and name are required", sys)
  else
    let role? : Option Role :=
      if roleStr = "SENIOR" then some .SENIOR
      else if roleStr = "FAMILY" then some .FAMILY
      else none
    match role? with
    | none => (.err 400 "role must be SENIOR or FAMILY", sys)
    | some role =>
      match findUserByEmail sys.db email with
      | some _ => (.err 409 "Email already registered", sys)
      | none =>
        let user : User :=
          { id := sys.db.nextId, email := email, name := name, role := role
            protectionMode := true, riskThreshold := defaultRiskThreshold }
        (.ok 201 user,
          { sys with db :=
            { sys.db with users := sys.db.users ++ [user], nextId := sys.db.nextId + 1 } })

/-- Embedding of PATCH /api/users/settings (routes/users.js lines 105-123);
each field is written only when the body carries an acceptable value, and a
falsy (empty) name or phone is skipped, matching the truthiness tests. -/
def settingsRoute (sys : Sys) (actorId : Nat) (protectionMode : Option Bool)
    (riskThreshold : Option Rat) (name : Option String) : RouteRes User × Sys :=
  match findUser sys.db actorId with
  | none => (.err 401 "User not found", sys)
  | some actor =>
    if actor.role ≠ .SENIOR then (.err 403 "Senior access only", sys)
    else
      let upd : User → User := fun u =>
        let u := match protectionMode with
          | some b => { u with protectionMode := b }
          | none => u
        let u := match riskThreshold with
          | some r => { u with riskThreshold := r }
          | none => u
        match name with
        | some n => if n ≠ "" then { u with name := n } else u
        | none => u
      let updatedUsers := sys.db.users.map (fun u => if u.id = actor.id then upd u else u)
      (.ok 200 (upd actor), { sys with db := { sys.db with users := updatedUsers } })

/-- Socket connect (lib/socket.js lines 25-34): the socket joins its personal
room user:{userId}. -/
def connectSock (sys : Sys) (sid userId : Nat) : Sys :=
  { sys with socks := sys.socks ++ [{ sid := sid, userId := userId, rooms := [userId] }] }

/-- Embedding of the join:senior handler (lib/socket.js lines 37-40): the
socket joins room user:{seniorId} unconditionally — no role check and no
TrustedLink lookup appear in the handler. -/
def joinSenior (sys : Sys) (sid seniorId : Nat) : Sys :=
  { sys with socks := sys.socks.map (fun s =>
      if s.sid = sid then { s with rooms := s.rooms ++ [seniorId] } else s) }

/-- Request data of one in-flight decide call; actor id and role are the
req.user snapshot resolved by authenticate before the handler body runs. -/
structure DCall where
  actorId : Nat
  actorRole : Role
  alertId : Nat
  decision : String
  note : Option String
  now : Nat
  deriving DecidableEq, Repr

/-- Control point of an in-flight decide call, between the await points of
routes/alerts.js: after the alert read and its synchronous checks (.checked,
only reached by FAMILY actors, who still await the link lookup), after the
access check (.authed), after the approval insert (.approvalMade), after the
alert update (.updated), and finished with an HTTP status code. -/
inductive DPc where
  | start
  | checked (snap : Alert)
  | authed (snap : Alert)
  | approvalMade (snap : Alert)
  | updated (snap : Alert)
  | finished (code : Nat)
  deriving DecidableEq, Repr

/-- One atomic segment of the decide handler: everything between two
consecutive await points of routes/alerts.js runs without interleaving on the
Node event loop, and each await performs one database operation.  The read at
.start takes the alert snapshot and runs the 400/404/409 checks and the
synchronous SENIOR access check; .checked awaits the FAMILY link lookup;
.authed awaits prisma.approval.create; .approvalMade awaits
prisma.alert.update (keyed on id only — no status condition); .updated reads
the ACTIVE links and emits. -/
def dstep (sys : Sys) (c : DCall) : DPc → Sys × DPc
  | .start =>
    match decodeDecision c.decision with
    | none => (sys, .finished 400)
    | some _ =>
      match sys.db.alerts.find? (fun a => a.id == c.alertId) with
      | none => (sys, .finished 404)
      | some alert =>
        if alert.status ≠ .PENDING then (sys, .finished 409)
        else
          match c.actorRole with
          | .SENIOR =>
            if alert.seniorId = c.actorId then (sys, .authed alert)
            else (sys, .finished 403)
          | .FAMILY => (sys, .checked alert)
  | .checked snap =>
    if hasActiveLink sys.db snap.seniorId c.actorId then (sys, .authed snap)
    else (sys, .finished 403)
  | .authed snap =>
    let approval : Approval :=
      { id := sys.db.nextId, alertId := snap.id, userId := c.actorId
        decision := c.decision, note := c.note }
    let db1 : DB :=
      { sys.db with approvals := sys.db.approvals ++ [approval], nextId := sys.db.nextId + 1 }
    ({ sys with db := db1 }, .approvalMade snap)
  | .approvalMade snap =>
    let d := (decodeDecision c.decision).getD .APPROVED
    let updatedAlerts := sys.db.alerts.map (fun a =>
      if a.id = snap.id then { a with status := d, resolvedAt := some c.now } else a)
    ({ sys with db := { sys.db with alerts := updatedAlerts } }, .updated snap)
  | .updated snap =>
    let recipients := activeLinksOf sys.db snap.seniorId
    let newEmits : List Emit :=
      { room := snap.seniorId, event := "alert:update", alertId := snap.id } ::
        recipients.map (fun l =>
          { room := l.familyId, event := "alert:update", alertId := snap.id })
    ({ sys with emits := sys.emits ++ newEmits }, .finished 200)
  | .finished code => (sys, .finished code)

/-- Interleaved execution of two concurrent decide requests: the schedule
picks, per step, which request's next segment the event loop runs (true = the
first request). -/
def runTwo (sys : Sys) (ca : DCall) (pa : DPc) (cb : DCall) (pb : DPc) :
    List Bool → Sys × DPc × DPc
  | [] => (sys, pa, pb)
  | true :: rest =>
    let out := dstep sys ca pa
    runTwo out.1 ca out.2 cb pb rest
  | false :: rest =>
    let out := dstep sys cb pb
    runTwo out.1 ca pa cb out.2 rest

/-- One server operation, for executing whole scenarios sequentially. -/
inductive Op where
  | register (email name roleStr : String)
  | submit (actorId : Nat) (body : TxnBody) (ml : Option MLResult) (g : GeminiOutcome) (now : Nat)
  | decideOp (actorId alertId : Nat) (decision : String) (note : Option String) (now : Nat)
  | invite (actorId : Nat) (email : String)
  | revoke (actorId familyId : Nat)
  | settings (actorId : Nat) (protectionMode : Option Bool) (riskThreshold : Option Rat)
      (name : Option String)
  | connect (sid userId : Nat)
  | joinSeniorOp (sid seniorId : Nat)

/-- Route dispatch: apply one operation to the system state. -/
def applyOp (sys : Sys) : Op → Sys
  | .register email name roleStr => (registerRoute sys email name roleStr).2
  | .submit actorId body ml g now => (submitTransaction sys actorId body ml g now).2
  | .decideOp actorId alertId decision note now =>
      (decideRoute sys actorId alertId decision note now).2
  | .invite actorId email => (inviteRoute sys actorId email).2
  | .revoke actorId familyId => (revokeRoute sys actorId familyId).2
  | .settings actorId pm rt name => (settingsRoute sys actorId pm rt name).2
  | .connect sid userId => connectSock sys sid userId
  | .joinSeniorOp sid seniorId => joinSenior sys sid seniorId

/-- Run a sequence of operations from the empty initial state. -/
def execOps (l : List Op) : Sys :=
  l.foldl applyOp initSys

/-- HTTP status code of a route result. -/
def resCode {α : Type} : RouteRes α → Nat
  | .ok code _ => code
  | .err code _ => code

/-- Whether a route result is a success response. -/
def isOk {α : Type} : RouteRes α → Bool
  | .ok _ _ => true
  | .err _ _ => false

/-- Concrete protected party used by the race scenario. -/
def raceSenior : User :=
  { id := 1, email := "m@demo", name := "Margaret", role := .SENIOR
    protectionMode := true, riskThreshold := mkRat 3 10 }

/-- Concrete reviewer used by the race scenario. -/
def raceFamily : User :=
  { id := 2, email := "s@demo", name := "Sarah", role := .FAMILY
    protectionMode := true, riskThreshold := mkRat 3 10 }

/-- Concrete PENDING alert on which two decide requests race. -/
def raceAlert : Alert :=
  { id := 5, seniorId := 1, transactionId := 4, status := .PENDING
    aiSummary := none, aiReasons := [], aiAction := none, usedFallback := false
    createdAt := 0, resolvedAt := none }

/-- ACTIVE trusted link authorizing the reviewer in the race scenario. -/
def raceLink : TrustedLink := { id := 3, seniorId := 1, familyId := 2, status := .ACTIVE }

/-- System state before the two concurrent decide requests. -/
def raceSys : Sys :=
  { db := { users := [raceSenior, raceFamily], txns := [], alerts := [raceAlert],
              approvals := [], links := [raceLink], nextId := 6 }
    socks := [], emits := [] }

/-- First concurrent request: the senior denies alert 5. -/
def raceCallA : DCall :=
  { actorId := 1, actorRole := .SENIOR, alertId := 5, decision := "DENIED"
    note := none, now := 100 }

/-- Second concurrent request: the reviewer approves alert 5. -/
def raceCallB : DCall :=
  { actorId := 2, actorRole := .FAMILY, alertId := 5, decision := "APPROVED"
    note := none, now := 101 }

/-- Schedule exhibiting the race: request A reads the alert and passes its
PENDING check, request B then runs to completion, then A resumes and also
commits. -/
def raceSchedule : List Bool :=
  [true, false, false, false, false, false, true, true, true]

/-- Prefix of raceSchedule up to the point where B has fully committed while
A is suspended between its PENDING check and its own writes. -/
def racePrefix : List Bool := [true, false, false, false, false, false]

/-- Scenario for the revocation-fanout claim: a reviewer is invited, their
socket joins the senior's room via join:senior, the link is then revoked, and
afterwards a risky transaction is submitted. -/
def revokeFanoutOps : List Op :=
  [ .register "m@demo" "Margaret" "SENIOR"
  , .register "s@demo" "Sarah" "FAMILY"
  , .invite 1 "s@demo"
  , .connect 10 2
  , .joinSeniorOp 10 1
  , .revoke 1 2
  , .submit 1
      { amount := 850, merchant := "CoinFlip ATM", mcc := "6051", mccDesc := none
        city := "Unknown City", deviceId := none }
      (some { riskScore := mkRat 9 10, riskLevel := "CRITICAL", anomalyScore := mkRat 9 10,
              fraudProbability := mkRat 9 10, riskFlags := [], geminiPromptContext := none })
      .noKey 50 ]

/-- System with one registered senior (id 1) and nothing else. -/
def oneSeniorSys : Sys := execOps [.register "m@demo" "Margaret" "SENIOR"]

/-- Malformed submission body: a negative amount. -/
def negAmountBody : TxnBody :=
  { amount := -50, merchant := "QuickCash", mcc := "6051", mccDesc := none
    city := "Unknown City", deviceId := none }

/-- System in which the senior has raised their riskThreshold setting to 0.5
through PATCH /api/users/settings. -/
def raisedThresholdSys : Sys :=
  execOps [.register "m@demo" "Margaret" "SENIOR", .settings 1 none (some (mkRat 1 2)) none]

/-- Benign submission body used by the threshold counterexample. -/
def smallBody : TxnBody :=
  { amount := 10, merchant := "Publix", mcc := "5411", mccDesc := none
    city := "Tampa", deviceId := none }

/-- Register never touches the alerts table and never lowers the id counter. -/
theorem register_alerts_invar (sys : Sys) (email name roleStr : String) :
    (registerRoute sys email name roleStr).2.db.alerts = sys.db.alerts ∧
    sys.db.nextId ≤ (registerRoute sys email name roleStr).2.db.nextId := by
  unfold registerRoute
  repeat' split
  all_goals exact ⟨rfl, by simp⟩

/-- Invite never touches the alerts table and never lowers the id counter. -/
theorem invite_alerts_invar (sys : Sys) (actorId : Nat) (email : String) :
    (inviteRoute sys actorId email).2.db.alerts = sys.db.alerts ∧
    sys.db.nextId ≤ (inviteRoute sys actorId email).2.db.nextId := by
  unfold inviteRoute
  repeat' split
  all_goals exact ⟨rfl, by simp⟩

/-- Revoke never touches the alerts table and never lowers the id counter. -/
theorem revoke_alerts_invar (sys : Sys) (actorId familyId : Nat) :
    (revokeRoute sys actorId familyId).2.db.alerts = sys.db.alerts ∧
    sys.db.nextId ≤ (revokeRoute sys actorId familyId).2.db.nextId := by
  unfold revokeRoute
  repeat' split
  all_goals exact ⟨rfl, by simp⟩

/-- Settings updates never touch the alerts table or the id counter. -/
theorem settings_alerts_invar (sys : Sys) (actorId : Nat) (pm : Option Bool)
    (rt : Option Rat) (name : Option String) :
    (settingsRoute sys actorId pm rt name).2.db.alerts = sys.db.alerts ∧
    sys.db.nextId ≤ (settingsRoute sys actorId pm rt name).2.db.nextId := by
  unfold settingsRoute
  repeat' split
  all_goals exact ⟨rfl, by simp⟩

/-- Case analysis of what one operation does to the alerts table: it leaves
it unchanged, appends one fresh PENDING alert with empty resolution fields,
or resolves one alert that was read as PENDING, setting a terminal status and
a resolution time; the id counter never decreases. -/
theorem applyOp_alerts_spec (sys : Sys) (op : Op) :
    ((applyOp sys op).db.alerts = sys.db.alerts ∧
      sys.db.nextId ≤ (applyOp sys op).db.nextId) ∨
    (∃ al : Alert, (applyOp sys op).db.alerts = sys.db.alerts ++ [al] ∧
      al.status = .PENDING ∧ al.resolvedAt = none ∧ sys.db.nextId ≤ al.id ∧
      al.id < (applyOp sys op).db.nextId) ∨
    (∃ snap : Alert, ∃ d : AlertStatus, ∃ now : Nat, snap ∈ sys.db.alerts ∧
      snap.status = .PENDING ∧ (d = AlertStatus.APPROVED ∨ d = AlertStatus.DENIED) ∧
      (applyOp sys op).db.alerts = sys.db.alerts.map (fun a =>
        if a.id = snap.id then { a with status := d, resolvedAt := some now } else a) ∧
      sys.db.nextId ≤ (applyOp sys op).db.nextId) := by
  cases op with
  | register email name roleStr => exact .inl (register_alerts_invar sys email name roleStr)
  | invite actorId email => exact .inl (invite_alerts_invar sys actorId email)
  | revoke actorId familyId => exact .inl (revoke_alerts_invar sys actorId familyId)
  | settings actorId pm rt name => exact .inl (settings_alerts_invar sys actorId pm rt name)
  | connect sid userId => exact .inl ⟨rfl, Nat.le_refl _⟩
  | joinSeniorOp sid seniorId => exact .inl ⟨rfl, Nat.le_refl _⟩
  | submit actorId body ml g now =>
    simp only [applyOp]
    unfold submitTransaction
    split
    · exact .inl ⟨rfl, Nat.le_refl _⟩
    · split
      · exact .inl ⟨rfl, Nat.le_refl _⟩
      · dsimp only
        split
        · refine .inr (.inl ⟨_, rfl, rfl, rfl, by simp, by simp⟩)
        · exact .inl ⟨rfl, by simp⟩
  | decideOp actorId alertId decision note now =>
    simp only [applyOp]
    unfold decideRoute
    split
    · exact .inl ⟨rfl, Nat.le_refl _⟩
    · split
      · exact .inl ⟨rfl, Nat.le_refl _⟩
      · rename_i actor heqUser d heqDec
        split
        · exact .inl ⟨rfl, Nat.le_refl _⟩
        · rename_i alert heqFind
          split
          · exact .inl ⟨rfl, Nat.le_refl _⟩
          · rename_i hp
            split
            · exact .inl ⟨rfl, Nat.le_refl _⟩
            · split
              · exact .inl ⟨rfl, Nat.le_refl _⟩
              · refine .inr (.inr ⟨alert, d, now, List.mem_of_find?_eq_some heqFind,
                  not_not.mp hp, ?_, rfl, by simp⟩)
                unfold decodeDecision at heqDec
                by_cases hA : decision = "APPROVED"
                · simp [hA] at heqDec
                  exact .inl heqDec.symm
                · by_cases hB : decision = "DENIED"
                  · simp [hA, hB] at heqDec
                    exact .inr heqDec.symm
                  · simp [hA, hB] at heqDec

/-- Well-formedness of the alerts table: ids below the generator and pairwise
distinct, and the resolution invariant of §3 — resolvedAt is set iff the
status is not PENDING. -/
def AlertsWF (db : DB) : Prop :=
  (∀ a ∈ db.alerts, a.id < db.nextId) ∧
  db.alerts.Pairwise (fun a b => a.id ≠ b.id) ∧
  (∀ a ∈ db.alerts, (a.resolvedAt ≠ none ↔ a.status ≠ AlertStatus.PENDING))

/-- The empty initial state is well-formed. -/
theorem alertsWF_init : AlertsWF initSys.db := by
  refine ⟨?_, ?_, ?_⟩ <;> simp [initSys]

/-- Every single operation preserves well-formedness of the alerts table. -/
theorem alertsWF_step (sys : Sys) (op : Op) (h : AlertsWF sys.db) :
    AlertsWF (applyOp sys op).db := by
  obtain ⟨hbound, hpair, hiff⟩ := h
  rcases applyOp_alerts_spec sys op with ⟨he, hn⟩ | ⟨al, he, hst, hres, hlo, hhi⟩ |
    ⟨snap, d, now, hmem, hpend, hd, he, hn⟩
  · refine ⟨?_, ?_, ?_⟩
    · rw [he]
      exact fun a ha => Nat.lt_of_lt_of_le (hbound a ha) hn
    · rw [he]; exact hpair
    · rw [he]; exact hiff
  · refine ⟨?_, ?_, ?_⟩
    · rw [he]
      intro a ha
      rcases List.mem_append.mp ha with ha | ha
      · exact Nat.lt_of_lt_of_le (hbound a ha) (Nat.le_of_lt (Nat.lt_of_le_of_lt hlo hhi))
      · rw [List.mem_singleton.mp ha]
        exact hhi
    · rw [he]
      refine List.pairwise_append.mpr ⟨hpair, List.pairwise_singleton _ _, ?_⟩
      intro a ha b hb
      rw [List.mem_singleton.mp hb]
      exact Nat.ne_of_lt (Nat.lt_of_lt_of_le (hbound a ha) hlo)
    · rw [he]
      intro a ha
      rcases List.mem_append.mp ha with ha | ha
      · exact hiff a ha
      · rw [List.mem_singleton.mp ha]
        simp [hst, hres]
  · refine ⟨?_, ?_, ?_⟩
    · rw [he]
      intro b hb
      obtain ⟨a, ha, rfl⟩ := List.mem_map.mp hb
      have hid : (if a.id = snap.id then
          { a with status := d, resolvedAt := some now } else a).id = a.id := by
        split <;> rfl
      rw [hid]
      exact Nat.lt_of_lt_of_le (hbound a ha) hn
    · rw [he]
      refine List.pairwise_map.mpr (hpair.imp ?_)
      intro a b hab
      have h1 : (if a.id = snap.id then
          { a with status := d, resolvedAt := some now } else a).id = a.id := by
        split <;> rfl
      have h2 : (if b.id = snap.id then
          { b with status := d, resolvedAt := some now } else b).id = b.id := by
        split <;> rfl
      rw [h1, h2]
      exact hab
    · rw [he]
      intro b hb
      obtain ⟨a, ha, rfl⟩ := List.mem_map.mp hb
      by_cases hid : a.id = snap.id
      · rcases hd with hd | hd <;> simp [hid, hd]
      · simp only [hid, if_false]
        exact hiff a ha

/-- A resolved alert row survives every single operation unchanged: the only
write that touches existing alert rows is the decide update, which is keyed
on the id of an alert that was read as PENDING. -/
theorem alerts_terminal_step (sys : Sys) (op : Op) (h : AlertsWF sys.db)
    (a : Alert) (ha : a ∈ sys.db.alerts) (hs : a.status ≠ AlertStatus.PENDING) :
    a ∈ (applyOp sys op).db.alerts := by
  rcases applyOp_alerts_spec sys op with ⟨he, _⟩ | ⟨al, he, _⟩ |
    ⟨snap, d, now, hmem, hpend, _, he, _⟩
  · rw [he]; exact ha
  · rw [he]; exact List.mem_append_left _ ha
  · rw [he]
    have hne : a.id ≠ snap.id := by
      intro hid
      have hsym : Symmetric (fun x y : Alert => x.id ≠ y.id) := fun x y hxy => hxy.symm
      by_cases heq : a = snap
      · exact hs (heq ▸ hpend)
      · exact (h.2.1.forall hsym ha hmem heq) hid
    have hfix : (if a.id = snap.id then
        { a with status := d, resolvedAt := some now } else a) = a := by
      simp [hne]
    exact hfix ▸ List.mem_map_of_mem _ ha

/-- Well-formedness is preserved along any operation sequence. -/
theorem alertsWF_foldl (l : List Op) (sys : Sys) (h : AlertsWF sys.db) :
    AlertsWF (l.foldl applyOp sys).db := by
  induction l generalizing sys with
  | nil => exact h
  | cons op rest ih => exact ih _ (alertsWF_step sys op h)

/-- A resolved alert row survives any further operation sequence unchanged. -/
theorem alerts_terminal_foldl (l : List Op) (sys : Sys) (h : AlertsWF sys.db)
    (a : Alert) (ha : a ∈ sys.db.alerts) (hs : a.status ≠ AlertStatus.PENDING) :
    a ∈ (l.foldl applyOp sys).db.alerts := by
  induction l generalizing sys with
  | nil => exact ha
  | cons op rest ih =>
    exact ih _ (alertsWF_step sys op h) (alerts_terminal_step sys op h a ha hs)

/-- Every state reached from the initial state is well-formed. -/
theorem alertsWF_execOps (l : List Op) : AlertsWF (execOps l).db :=
  alertsWF_foldl l initSys alertsWF_init

/-- Claim C6: in every reachable state, an alert's resolvedAt is set iff its
status is not PENDING, and once an alert is non-PENDING its row never changes
again under any further sequence of operations — the row survives verbatim
and remains the unique row with its id. -/
theorem alert_resolution_invariant (l more : List Op) (a : Alert)
    (ha : a ∈ (execOps l).db.alerts) :
    ((a.resolvedAt ≠ none) ↔ (a.status ≠ AlertStatus.PENDING)) ∧
    (a.status ≠ AlertStatus.PENDING →
      a ∈ (execOps (l ++ more)).db.alerts ∧
      ∀ b ∈ (execOps (l ++ more)).db.alerts, b.id = a.id → b = a) := by
  have hwf := alertsWF_execOps l
  refine ⟨hwf.2.2 a ha, ?_⟩
  intro hs
  have hfold : execOps (l ++ more) = more.foldl applyOp (execOps l) := by
    unfold execOps
    exact List.foldl_append _ _ _ _
  have hmem : a ∈ (execOps (l ++ more)).db.alerts := by
    rw [hfold]
    exact alerts_terminal_foldl more (execOps l) hwf a ha hs
  refine ⟨hmem, ?_⟩
  intro b hb hid
  have hwf2 := alertsWF_execOps (l ++ more)
  by_cases heq : b = a
  · exact heq
  · have hsym : Symmetric (fun x y : Alert => x.id ≠ y.id) := fun x y hxy => hxy.symm
    exact absurd hid (hwf2.2.1.forall hsym hb hmem heq)

/-- Minimal prompt context used by the invariant witness scenario. -/
def ctxC6 : PromptCtx :=
  { promptTemplate := "p", transaction := none, risk := none, userBaseline := none }

/-- High-risk ML result used by the invariant witness scenario. -/
def mlHighC6 : MLResult :=
  { riskScore := mkRat 9 10, riskLevel := "CRITICAL", anomalyScore := mkRat 9 10
    fraudProbability := mkRat 9 10, riskFlags := [], geminiPromptContext := some ctxC6 }

/-- Operation sequence of the invariant witness: register, submit a risky
transaction (alert id 3), approve it. -/
def opsC6 : List Op :=
  [ .register "m@demo" "Margaret" "SENIOR"
  , .submit 1
      { amount := 850, merchant := "CoinFlip ATM", mcc := "6051", mccDesc := none
        city := "Unknown City", deviceId := none }
      (some mlHighC6) (.parsed "ok" ["r1", "r2"] "act") 50
  , .decideOp 1 3 "APPROVED" none 60 ]

/-- Further operations thrown at the already-resolved alert. -/
def moreC6 : List Op := [.decideOp 1 3 "DENIED" none 70]

/-- Resolved alert row produced by opsC6. -/
def alertC6 : Alert :=
  { id := 3, seniorId := 1, transactionId := 2, status := .APPROVED
    aiSummary := some "ok", aiReasons := ["r1", "r2"], aiAction := some "act"
    usedFallback := false, createdAt := 50, resolvedAt := some 60 }

/-- Witness for the resolution invariant: the concrete approved alert of opsC6
satisfies the invariant and survives a later decide attempt unchanged. -/
theorem alert_resolution_invariant_witness :
    alertC6 ∈ (execOps opsC6).db.alerts ∧
    ((alertC6.resolvedAt ≠ none) ↔ (alertC6.status ≠ AlertStatus.PENDING)) ∧
    alertC6 ∈ (execOps (opsC6 ++ moreC6)).db.alerts :=
  ⟨by decide, (alert_resolution_invariant opsC6 moreC6 alertC6 (by decide)).1,
    ((alert_resolution_invariant opsC6 moreC6 alertC6 (by decide)).2 (by decide)).1⟩

/-- Claim C3: when the ML backend fails, the submission still succeeds with
201, the transaction is persisted with the fixed neutral annex
(score 0.35, MEDIUM, anomaly 0.35, fraud probability 0.35, no flags), and —
since 0.35 is at least the hard-coded threshold 0.30 — a PENDING alert with
empty resolution fields is created for it; the explanation is the flag-based
fallback because gemini_prompt_context is null. -/
theorem ml_outage_fail_open (sys : Sys) (actorId : Nat) (actor : User) (body : TxnBody)
    (g : GeminiOutcome) (now : Nat)
    (hu : findUser sys.db actorId = some actor) (hr : actor.role = Role.SENIOR) :
    ∃ scored : Txn, ∃ alert : Alert,
      (submitTransaction sys actorId body none g now).1 = .ok 201 (scored, some alert) ∧
      (submitTransaction sys actorId body none g now).2.db.txns = sys.db.txns ++ [scored] ∧
      (submitTransaction sys actorId body none g now).2.db.alerts = sys.db.alerts ++ [alert] ∧
      scored.riskScore = some (mkRat 35 100) ∧
      scored.riskLevel = some "MEDIUM" ∧
      scored.anomalyScore = some (mkRat 35 100) ∧
      scored.fraudProbability = some (mkRat 35 100) ∧
      scored.riskFlags = [] ∧
      scored.amount = body.amount ∧
      alert.status = AlertStatus.PENDING ∧
      alert.resolvedAt = none ∧
      alert.seniorId = actor.id ∧
      alert.transactionId = scored.id ∧
      alert.usedFallback = true := by
  have hth : (scoreTransaction none).riskScore ≥ mkRat 3 10 := by decide
  have hfb : ∀ g' : GeminiOutcome, (explainTransaction none g').usedFallback = true := by
    intro g'
    cases g' <;> rfl
  unfold submitTransaction
  rw [hu]
  simp only [hr, ne_eq, not_true_eq_false, if_false, reduceCtorEq, ite_false]
  simp only [scoreTransaction, Option.getD_none] at hth ⊢
  rw [if_pos hth]
  exact ⟨_, _, rfl, rfl, rfl, rfl, rfl, rfl, rfl, rfl, rfl, rfl, rfl, rfl, rfl, hfb g⟩

/-- Registered senior row that oneSeniorSys contains. -/
def margUser : User :=
  { id := 1, email := "m@demo", name := "Margaret", role := .SENIOR
    protectionMode := true, riskThreshold := defaultRiskThreshold }

/-- Witness for the fail-open theorem on a concrete state: one registered
senior, arbitrary benign body, ML unreachable. -/
theorem ml_outage_fail_open_witness :
    findUser oneSeniorSys.db 1 = some margUser ∧
    (∃ scored : Txn, ∃ alert : Alert,
      (submitTransaction oneSeniorSys 1 smallBody none .noKey 7).1 = .ok 201 (scored, some alert) ∧
      (submitTransaction oneSeniorSys 1 smallBody none .noKey 7).2.db.txns
        = oneSeniorSys.db.txns ++ [scored] ∧
      (submitTransaction oneSeniorSys 1 smallBody none .noKey 7).2.db.alerts
        = oneSeniorSys.db.alerts ++ [alert] ∧
      scored.riskScore = some (mkRat 35 100) ∧
      scored.riskLevel = some "MEDIUM" ∧
      scored.anomalyScore = some (mkRat 35 100) ∧
      scored.fraudProbability = some (mkRat 35 100) ∧
      scored.riskFlags = [] ∧
      scored.amount = smallBody.amount ∧
      alert.status = AlertStatus.PENDING ∧
      alert.resolvedAt = none ∧
      alert.seniorId = 1 ∧
      alert.transactionId = scored.id ∧
      alert.usedFallback = true) :=
  ⟨by decide, ml_outage_fail_open oneSeniorSys 1 margUser smallBody .noKey 7 (by decide) rfl⟩

/-- Claim C4 amended: an alert is created iff the final score is at least the
fixed threshold 0.30 hard-coded in routes/transactions.js — the submitting
user's riskThreshold setting is stored by PATCH /api/users/settings but never
consulted by the pipeline — and a created alert starts PENDING with empty
resolution fields. -/
theorem alert_iff_fixed_threshold (sys : Sys) (actorId : Nat) (actor : User)
    (body : TxnBody) (ml : Option MLResult) (g : GeminiOutcome) (now : Nat)
    (hu : findUser sys.db actorId = some actor) (hr : actor.role = Role.SENIOR) :
    ((scoreTransaction ml).riskScore ≥ mkRat 3 10 →
      ∃ alert : Alert,
        (submitTransaction sys actorId body ml g now).2.db.alerts
          = sys.db.alerts ++ [alert] ∧
        alert.status = AlertStatus.PENDING ∧
        alert.resolvedAt = none ∧
        alert.seniorId = actor.id) ∧
    (¬ (scoreTransaction ml).riskScore ≥ mkRat 3 10 →
      (submitTransaction sys actorId body ml g now).2.db.alerts = sys.db.alerts) := by
  unfold submitTransaction
  rw [hu]
  simp only [hr, ne_eq, not_true_eq_false, if_false, reduceCtorEq, ite_false]
  constructor
  · intro hge
    rw [if_pos hge]
    exact ⟨_, rfl, rfl, rfl, rfl⟩
  · intro hlt
    rw [if_neg hlt]

/-- Witness for the fixed-threshold theorem: the registered senior submits
while ML is down; the fallback score 0.35 meets the fixed 0.30 threshold, so
an alert is appended. -/
theorem alert_iff_fixed_threshold_witness :
    findUser oneSeniorSys.db 1 = some margUser ∧
    (((scoreTransaction none).riskScore ≥ mkRat 3 10 →
      ∃ alert : Alert,
        (submitTransaction oneSeniorSys 1 smallBody none .noKey 7).2.db.alerts
          = oneSeniorSys.db.alerts ++ [alert] ∧
        alert.status = AlertStatus.PENDING ∧
        alert.resolvedAt = none ∧
        alert.seniorId = 1) ∧
    (¬ (scoreTransaction none).riskScore ≥ mkRat 3 10 →
      (submitTransaction oneSeniorSys 1 smallBody none .noKey 7).2.db.alerts
        = oneSeniorSys.db.alerts)) :=
  ⟨by decide, alert_iff_fixed_threshold oneSeniorSys 1 margUser smallBody none .noKey 7 (by decide) rfl⟩

/-- Claim C1: of N concurrent decide() calls on a PENDING alert exactly one
observes PENDING and commits, the others fail with AlreadyResolved, and
exactly one Approval matches the final status.  The code refutes this: the
handler re-reads and re-writes the alert with no transaction and no
status-conditioned update, so under the schedule raceSchedule both requests
observe PENDING, both return 200, two Approval rows are inserted for the one
alert, and the final status is the decision of whichever update ran last
(here DENIED, silently overwriting the APPROVED commit). -/
theorem decide_race_both_commit :
    (runTwo raceSys raceCallA .start raceCallB .start raceSchedule).2
      = (.finished 200, .finished 200) ∧
    ((runTwo raceSys raceCallA .start raceCallB .start raceSchedule).1.db.approvals.filter
      (fun ap => ap.alertId == 5)).length = 2 ∧
    ((runTwo raceSys raceCallA .start raceCallB .start raceSchedule).1.db.alerts.map
      (·.status)) = [.DENIED] := by
  refine ⟨rfl, rfl, rfl⟩

/-- Claim C2: decide() is atomic and a call that finds the alert no longer
PENDING at commit time fails with AlreadyResolved and mutates nothing.  The
code refutes this: after racePrefix, request B has fully committed (the alert
is APPROVED and resolved) while request A — which passed its PENDING check
earlier — is suspended before its writes; A then resumes, returns 200, inserts
a second Approval, and flips the already-resolved alert to DENIED. -/
theorem decide_commit_after_resolution :
    ((runTwo raceSys raceCallA .start raceCallB .start racePrefix).1.db.alerts.map
      (·.status)) = [.APPROVED] ∧
    (runTwo raceSys raceCallA .start raceCallB .start racePrefix).2.1
      = .authed raceAlert ∧
    (runTwo raceSys raceCallA .start raceCallB .start raceSchedule).2.1
      = .finished 200 ∧
    ((runTwo raceSys raceCallA .start raceCallB .start raceSchedule).1.db.alerts.map
      (·.status)) = [.DENIED] ∧
    (runTwo raceSys raceCallA .start raceCallB .start raceSchedule).1.db.approvals.length
      = 2 := by
  refine ⟨rfl, rfl, rfl, rfl, rfl⟩

/-- Claim C5: after a TrustedLink is revoked no alert event is delivered to
the revoked reviewer. The code refutes this: the per-reviewer fanout list is
computed fresh (room 2 gets no emit), but the reviewer's socket joined room
user:1 via join:senior and is never removed from it on revoke, so the
alert:new emitted to the senior's room after the revocation is still
delivered to the revoked reviewer's socket. -/
theorem revoked_reviewer_still_receives :
    ((execOps revokeFanoutOps).db.links.map (·.status) = [.REVOKED]) ∧
    ((execOps revokeFanoutOps).emits = [{ room := 1, event := "alert:new", alertId := 5 }]) ∧
    (∃ s ∈ (execOps revokeFanoutOps).socks, s.userId = 2 ∧
      (execOps revokeFanoutOps).emits.any
        (fun e => e.event == "alert:new" && s.rooms.contains e.room) = true) := by
  refine ⟨rfl, rfl, ⟨{ sid := 10, userId := 2, rooms := [2, 1] }, ?_, rfl, rfl⟩⟩
  decide

/-- Claim C7: a submission with a malformed amount is rejected with a
ValidationError before scoring and before persistence.  The code refutes
this: POST /api/transactions performs no validation at all, so an amount of
-50 (negative, hence outside the documented non-negative constraint) is
persisted, scored, and answered with 201. -/
theorem negative_amount_accepted :
    resCode (submitTransaction oneSeniorSys 1 negAmountBody none .noKey 5).1 = 201 ∧
    ((submitTransaction oneSeniorSys 1 negAmountBody none .noKey 5).2.db.txns.map
      (·.amount)) = [-50] ∧
    ((submitTransaction oneSeniorSys 1 negAmountBody none .noKey 5).2.db.txns.map
      (·.scoredAt)) = [some 5] := by
  refine ⟨rfl, by decide, rfl⟩

/-- Claim C4 as stated is false on the code: the submitting user's
riskThreshold setting is 0.5, the fallback score 0.35 is below it, yet an
alert is created, because routes/transactions.js hard-codes threshold 0.3 and
never reads the user's setting. -/
theorem user_threshold_ignored :
    ((raisedThresholdSys).db.users.map (·.riskThreshold) = [mkRat 1 2]) ∧
    ((scoreTransaction none).riskScore = mkRat 35 100) ∧
    (mkRat 35 100 < mkRat 1 2) ∧
    ((submitTransaction raisedThresholdSys 1 smallBody none .noKey 50).2.db.alerts.map
      (fun a => (a.status, a.resolvedAt))) = [(.PENDING, none)] := by
  refine ⟨by decide, rfl, by norm_num, rfl⟩

/-- Whether explainTransaction lands in the fallback branch of lib/gemini.js:
no API key, a request error, a JSON parse failure, a null prompt context (the
template dereference throws inside the try), or a parsed object with a falsy
summary or action. -/
def fallbackTaken (ctx : Option PromptCtx) (o : GeminiOutcome) : Bool :=
  match o, ctx with
  | .noKey, _ => true
  | .requestError, _ => true
  | .parseFailure, _ => true
  | .parsed _ _ _, none => true
  | .parsed s _ a, some _ => s == "" || a == ""

/-- Flag codes that buildFallbackExplanation turns into template sentences,
in the order the JS tests them. -/
def fallbackFlagCodes : List String :=
  ["LARGE_AMOUNT", "HIGH_RISK_CATEGORY", "NEW_LOCATION", "NEW_MERCHANT",
   "UNUSUAL_TIME", "HIGH_VELOCITY"]

/-- Defaulted reason list of buildFallbackExplanation is never empty. -/
theorem fallbackReasonsNonempty (l : List String) (g : String) :
    (if l = [] then [g] else l) ≠ [] := by
  split
  · simp
  · assumption

/-- Claim C8: the explanation step never fails the pipeline — on every Gemini
failure, including a null prompt context, the result is the deterministic
flag-template fallback, marked usedFallback, never empty, with one template
sentence per triggered flag type (and the generic sentence when none
triggers). -/
theorem explanation_never_fails (ctx : Option PromptCtx) (o : GeminiOutcome)
    (h : fallbackTaken ctx o = true) :
    explainTransaction ctx o = buildFallbackExplanation ctx ∧
    (buildFallbackExplanation ctx).usedFallback = true ∧
    (buildFallbackExplanation ctx).reasons ≠ [] ∧
    ((ctxFlags ctx).contains "LARGE_AMOUNT" = true →
      ("This purchase ($" ++ ratToFixed (ctxAmount ctx) 2 ++ ") is " ++
        ratToFixed (ctxFactor ctx) 1 ++ "x larger than your typical spending")
        ∈ (buildFallbackExplanation ctx).reasons) ∧
    ((ctxFlags ctx).contains "HIGH_RISK_CATEGORY" = true →
      "This merchant type (gift cards or financial transfers) is commonly used in scams targeting seniors"
        ∈ (buildFallbackExplanation ctx).reasons) ∧
    ((ctxFlags ctx).contains "NEW_LOCATION" = true →
      ("This transaction is from an unfamiliar location: " ++ ctxCity ctx)
        ∈ (buildFallbackExplanation ctx).reasons) ∧
    ((ctxFlags ctx).contains "NEW_MERCHANT" = true →
      ("You have not shopped at \"" ++ ctxMerchant ctx ++ "\" before")
        ∈ (buildFallbackExplanation ctx).reasons) ∧
    ((ctxFlags ctx).contains "UNUSUAL_TIME" = true →
      "This transaction occurred at an unusual hour for your spending pattern"
        ∈ (buildFallbackExplanation ctx).reasons) ∧
    ((ctxFlags ctx).contains "HIGH_VELOCITY" = true →
      "Multiple transactions occurred in a short time period"
        ∈ (buildFallbackExplanation ctx).reasons) ∧
    ((buildFallbackExplanation ctx).reasons.length =
      if (fallbackFlagCodes.filter (fun c => (ctxFlags ctx).contains c)).length = 0 then 1
      else (fallbackFlagCodes.filter (fun c => (ctxFlags ctx).contains c)).length) := by
  refine ⟨?_, rfl, ?_, ?_, ?_, ?_, ?_, ?_, ?_, ?_⟩
  · cases o with
    | noKey => rfl
    | requestError => rfl
    | parseFailure => rfl
    | parsed s rs a =>
      cases ctx with
      | none => rfl
      | some c =>
        simp only [fallbackTaken, Bool.or_eq_true, beq_iff_eq] at h
        unfold explainTransaction
        dsimp only
        rw [if_neg]
        intro hv
        rcases h with h | h
        · exact hv.1 h
        · exact hv.2 h
  · unfold buildFallbackExplanation
    dsimp only
    exact fallbackReasonsNonempty _ _
  · intro hc
    have hm : "LARGE_AMOUNT" ∈ ctxFlags ctx := by simpa using hc
    simp [buildFallbackExplanation, hm]
  · intro hc
    have hm : "HIGH_RISK_CATEGORY" ∈ ctxFlags ctx := by simpa using hc
    simp [buildFallbackExplanation, hm]
  · intro hc
    have hm : "NEW_LOCATION" ∈ ctxFlags ctx := by simpa using hc
    simp [buildFallbackExplanation, hm]
  · intro hc
    have hm : "NEW_MERCHANT" ∈ ctxFlags ctx := by simpa using hc
    simp [buildFallbackExplanation, hm]
  · intro hc
    have hm : "UNUSUAL_TIME" ∈ ctxFlags ctx := by simpa using hc
    simp [buildFallbackExplanation, hm]
  · intro hc
    have hm : "HIGH_VELOCITY" ∈ ctxFlags ctx := by simpa using hc
    simp [buildFallbackExplanation, hm]
  · by_cases h1 : "LARGE_AMOUNT" ∈ ctxFlags ctx <;>
    by_cases h2 : "HIGH_RISK_CATEGORY" ∈ ctxFlags ctx <;>
    by_cases h3 : "NEW_LOCATION" ∈ ctxFlags ctx <;>
    by_cases h4 : "NEW_MERCHANT" ∈ ctxFlags ctx <;>
    by_cases h5 : "UNUSUAL_TIME" ∈ ctxFlags ctx <;>
    by_cases h6 : "HIGH_VELOCITY" ∈ ctxFlags ctx <;>
    simp [buildFallbackExplanation, fallbackFlagCodes, h1, h2, h3, h4, h5, h6]

/-- Prompt context used by the explanation witness: a crypto-ATM purchase
with two triggered flags. -/
def ctxC8 : PromptCtx :=
  { promptTemplate := "t"
    transaction := some { amount := 850, merchant := "CoinFlip ATM", city := "Unknown City" }
    risk := some { flags := ["HIGH_RISK_CATEGORY", "UNUSUAL_TIME"], level := "CRITICAL" }
    userBaseline := some { amountFactor := mkRat 189 10 } }

/-- Witness for the explanation theorem: a thrown request error on a concrete
context yields the marked fallback. -/
theorem explanation_never_fails_witness :
    fallbackTaken (some ctxC8) .requestError = true ∧
    explainTransaction (some ctxC8) .requestError = buildFallbackExplanation (some ctxC8) ∧
    (buildFallbackExplanation (some ctxC8)).usedFallback = true ∧
    (buildFallbackExplanation (some ctxC8)).reasons ≠ [] :=
  ⟨rfl, (explanation_never_fails (some ctxC8) .requestError rfl).1,
    (explanation_never_fails (some ctxC8) .requestError rfl).2.1,
    (explanation_never_fails (some ctxC8) .requestError rfl).2.2.1⟩

/-- Claim C9: behavior of invite and revoke on trusted links for an
authenticated senior actor, clause by clause: unknown email fails; a
non-FAMILY target fails; inviting oneself fails; a fresh pair creates an
ACTIVE link; an ACTIVE duplicate is a 409 conflict with no change; a REVOKED
link is reactivated in place; revoking a missing pair fails; revoking an
existing pair flips its status to REVOKED in place, keeping the row count. -/
theorem trusted_link_operations (sys : Sys) (actorId : Nat) (actor : User)
    (email : String) (familyId : Nat)
    (hu : findUser sys.db actorId = some actor) (hr : actor.role = Role.SENIOR)
    (he : email ≠ "") :
    (findUserByEmail sys.db email = none →
      inviteRoute sys actorId email = (.err 404 "No user found with that email", sys)) ∧
    (∀ fu : User, findUserByEmail sys.db email = some fu → fu.role ≠ Role.FAMILY →
      inviteRoute sys actorId email
        = (.err 400 "That user is not a family member account", sys)) ∧
    (∀ fu : User, findUserByEmail sys.db email = some fu → fu.id = actor.id →
      ∃ msg : String, inviteRoute sys actorId email = (.err 400 msg, sys)) ∧
    (∀ fu : User, findUserByEmail sys.db email = some fu → fu.role = Role.FAMILY →
      fu.id ≠ actor.id →
      sys.db.links.find? (fun l => l.seniorId == actor.id && l.familyId == fu.id) = none →
      inviteRoute sys actorId email =
        (.ok 201 { id := sys.db.nextId, seniorId := actor.id, familyId := fu.id
                   status := .ACTIVE },
         { sys with db := { sys.db with
            links := sys.db.links ++
              [{ id := sys.db.nextId, seniorId := actor.id, familyId := fu.id
                 status := .ACTIVE }]
            nextId := sys.db.nextId + 1 } })) ∧
    (∀ fu ex, findUserByEmail sys.db email = some fu → fu.role = Role.FAMILY →
      fu.id ≠ actor.id →
      sys.db.links.find? (fun l => l.seniorId == actor.id && l.familyId == fu.id) = some ex →
      ex.status = LinkStatus.ACTIVE →
      inviteRoute sys actorId email = (.err 409 "Already in trusted circle", sys)) ∧
    (∀ fu ex, findUserByEmail sys.db email = some fu → fu.role = Role.FAMILY →
      fu.id ≠ actor.id →
      sys.db.links.find? (fun l => l.seniorId == actor.id && l.familyId == fu.id) = some ex →
      ex.status = LinkStatus.REVOKED →
      inviteRoute sys actorId email =
        (.ok 200 { ex with status := LinkStatus.ACTIVE },
         { sys with db := { sys.db with links := sys.db.links.map (fun l =>
            if l.id = ex.id then { l with status := LinkStatus.ACTIVE } else l) } })) ∧
    (sys.db.links.find? (fun l => l.seniorId == actor.id && l.familyId == familyId) = none →
      revokeRoute sys actorId familyId = (.err 404 "Link not found", sys)) ∧
    (∀ lk, sys.db.links.find?
        (fun l => l.seniorId == actor.id && l.familyId == familyId) = some lk →
      revokeRoute sys actorId familyId =
        (.ok 200 (),
         { sys with db := { sys.db with links := sys.db.links.map (fun l =>
            if l.id = lk.id then { l with status := LinkStatus.REVOKED } else l) } }) ∧
      (sys.db.links.map (fun l =>
        if l.id = lk.id then { l with status := LinkStatus.REVOKED } else l)).length
        = sys.db.links.length) := by
  refine ⟨?_, ?_, ?_, ?_, ?_, ?_, ?_, ?_⟩
  · intro hfe
    unfold inviteRoute
    rw [hu]
    simp [hr, he, hfe]
  · intro fu hfe hrole
    unfold inviteRoute
    rw [hu]
    simp [hr, he, hfe, hrole]
  · intro fu hfe hid
    unfold inviteRoute
    rw [hu]
    by_cases hrole : fu.role = Role.FAMILY
    · refine ⟨"Cannot invite yourself", ?_⟩
      simp [hr, he, hfe, hrole, hid]
    · refine ⟨"That user is not a family member account", ?_⟩
      simp [hr, he, hfe, hrole]
  · intro fu hfe hrole hid hln
    unfold inviteRoute
    rw [hu]
    simp [hr, he, hfe, hrole, hid, hln]
  · intro fu ex hfe hrole hid hls hst
    unfold inviteRoute
    rw [hu]
    simp [hr, he, hfe, hrole, hid, hls, hst]
  · intro fu ex hfe hrole hid hls hst
    unfold inviteRoute
    rw [hu]
    simp [hr, he, hfe, hrole, hid, hls, hst]
  · intro hln
    unfold revokeRoute
    rw [hu]
    simp [hr, hln]
  · intro lk hls
    refine ⟨?_, by simp⟩
    unfold revokeRoute
    rw [hu]
    simp [hr, hls]

/-- Two-user state for the trusted-link witness: senior id 1, family id 2,
no links yet. -/
def twoUserSys : Sys :=
  execOps [.register "m@demo" "Margaret" "SENIOR", .register "s@demo" "Sarah" "FAMILY"]

/-- Registered family row that twoUserSys contains. -/
def sarahUser : User :=
  { id := 2, email := "s@demo", name := "Sarah", role := .FAMILY
    protectionMode := true, riskThreshold := defaultRiskThreshold }

/-- Witness for the trusted-link theorem: in the two-user state, inviting the
family member's email creates the ACTIVE link row, and revoking a pair with
no link is a 404. -/
theorem trusted_link_operations_witness :
    findUser twoUserSys.db 1 = some margUser ∧
    findUserByEmail twoUserSys.db "s@demo" = some sarahUser ∧
    inviteRoute twoUserSys 1 "s@demo" =
      (.ok 201 { id := 3, seniorId := 1, familyId := 2, status := .ACTIVE },
       { twoUserSys with db := { twoUserSys.db with
          links := [{ id := 3, seniorId := 1, familyId := 2, status := .ACTIVE }]
          nextId := 4 } }) ∧
    revokeRoute twoUserSys 1 9 = (.err 404 "Link not found", twoUserSys) :=
  ⟨by decide, by decide,
    (trusted_link_operations twoUserSys 1 margUser "s@demo" 9 (by decide) rfl
      (by decide)).2.2.2.1 sarahUser (by decide) rfl (by decide) rfl,
    (trusted_link_operations twoUserSys 1 margUser "s@demo" 9 (by decide) rfl
      (by decide)).2.2.2.2.2.2.1 (by decide)⟩

/-- Claim C10: the join:senior handler subscribes the caller's socket to the
senior's room unconditionally — the statement assumes nothing about the
caller's role or about any TrustedLink, and afterwards every emission to that
room reaches the socket. -/
theorem join_senior_unconditional (sys : Sys) (sid seniorId : Nat) (s : Sock)
    (h : s ∈ sys.socks) (hs : s.sid = sid) :
    ({ s with rooms := s.rooms ++ [seniorId] } : Sock) ∈ (joinSenior sys sid seniorId).socks ∧
    ∀ e : Emit, e.room = seniorId →
      ({ s with rooms := s.rooms ++ [seniorId] } : Sock).rooms.contains e.room = true := by
  constructor
  · unfold joinSenior
    dsimp only
    have hfix : (fun x : Sock =>
        if x.sid = sid then { x with rooms := x.rooms ++ [seniorId] } else x) s
        = { s with rooms := s.rooms ++ [seniorId] } := by
      simp [hs]
    exact hfix ▸ List.mem_map_of_mem _ h
  · intro e he
    simp [he]

/-- State for the join witness: the family user's socket 10 is connected; no
trusted link exists at all. -/
def joinSys : Sys :=
  execOps [.register "m@demo" "Margaret" "SENIOR", .register "s@demo" "Sarah" "FAMILY",
    .connect 10 2]

/-- Connected family socket inside joinSys before joining. -/
def famSock : Sock := { sid := 10, userId := 2, rooms := [2] }

/-- Witness for the join theorem: with no trusted link anywhere, socket 10
still ends up in the senior's room 1 and receives a room-1 emission. -/
theorem join_senior_unconditional_witness :
    joinSys.db.links = [] ∧
    famSock ∈ joinSys.socks ∧
    ({ famSock with rooms := famSock.rooms ++ [1] } : Sock) ∈ (joinSenior joinSys 10 1).socks ∧
    ({ famSock with rooms := famSock.rooms ++ [1] } : Sock).rooms.contains
      ({ room := 1, event := "alert:new", alertId := 7 } : Emit).room = true :=
  ⟨rfl, by decide, (join_senior_unconditional joinSys 10 1 famSock (by decide) rfl).1,
    (join_senior_unconditional joinSys 10 1 famSock (by decide) rfl).2
      { room := 1, event := "alert:new", alertId := 7 } rfl⟩

end SafePay

